import Mathlib

/-!
Shallow embedding of the rustdoc-generated data file
src/implementors/core/marker/trait.Freeze.js of the actix-http repository.

The file is an immediately-invoked JavaScript function that builds a local
object named implementors, assigns to it seven crate keys, each holding an
array of implementor records of shape (text, synthetic, types), and then
either calls window.register_implementors on the object (when that global is
defined and truthy) or stores the object into window.pending_implementors.

The embedding models an implementor record as a structure with the three
fields of the object literals, the implementors object as a string-keyed
association list built by successive key assignments in source order, and the
window as an explicit state threaded through the evaluation of the script.
-/

namespace TraitFreeze

/-- One implementor record: the shape of every object literal in the arrays of
the source file, with its three fields text, synthetic and types. -/
structure Implementor where
  text : String
  synthetic : Bool
  types : List String
  deriving DecidableEq, Repr

/-- The type of the implementors object: a string-keyed association list in
insertion order, as a JavaScript object literal with string keys behaves. -/
abbrev ImplMap := List (String × List Implementor)

/-- JavaScript assignment of key k to value v on a string-keyed object o:
overwrite in place when the key is present, append when it is new. -/
def objSet (o : ImplMap) (k : String) (v : List Implementor) : ImplMap :=
  if o.any (fun p => p.1 == k) then
    o.map (fun p => if p.1 == k then (k, v) else p)
  else
    o ++ [(k, v)]

/-- The implementor-record array assigned to the actix_files key of the implementors object. -/
def actix_files_impls : List Implementor := [
  Implementor.mk ("impl Freeze for Directory") true [],
  Implementor.mk ("impl Freeze for Files") true [],
  Implementor.mk ("impl Freeze for NamedFile") true [],
  Implementor.mk ("impl Freeze for HttpRange") true [],
  Implementor.mk ("impl Freeze for FilesService") true []
]

/-- The implementor-record array assigned to the actix_http key of the implementors object. -/
def actix_http_impls : List Implementor := [
  Implementor.mk ("impl&lt;T, S, X, U&gt; Freeze for HttpServiceBuilder&lt;T, S, X, U&gt; <span class=\"where fmt-newline\">where<br>&nbsp;&nbsp;&nbsp;&nbsp;U: Freeze,<br>&nbsp;&nbsp;&nbsp;&nbsp;X: Freeze,&nbsp;</span>") true [],
  Implementor.mk ("impl Freeze for ServiceConfig") true [],
  Implementor.mk ("impl Freeze for Extensions") true [],
  Implementor.mk ("impl&lt;T&gt; Freeze for Message&lt;T&gt;") true [],
  Implementor.mk ("impl !Freeze for RequestHead") true [],
  Implementor.mk ("impl !Freeze for ResponseHead") true [],
  Implementor.mk ("impl&lt;P&gt; Freeze for Request&lt;P&gt; <span class=\"where fmt-newline\">where<br>&nbsp;&nbsp;&nbsp;&nbsp;P: Freeze,&nbsp;</span>") true [],
  Implementor.mk ("impl&lt;B&nbsp;=&nbsp;Body&gt; !Freeze for Response&lt;B&gt;") true [],
  Implementor.mk ("impl Freeze for ResponseBuilder") true [],
  Implementor.mk ("impl&lt;T, S, B, X, U&gt; Freeze for HttpService&lt;T, S, B, X, U&gt; <span class=\"where fmt-newline\">where<br>&nbsp;&nbsp;&nbsp;&nbsp;S: Freeze,<br>&nbsp;&nbsp;&nbsp;&nbsp;U: Freeze,<br>&nbsp;&nbsp;&nbsp;&nbsp;X: Freeze,&nbsp;</span>") true [],
  Implementor.mk ("impl Freeze for KeepAlive") true [],
  Implementor.mk ("impl !Freeze for RequestHeadType") true [],
  Implementor.mk ("impl&lt;S&gt; Freeze for Payload&lt;S&gt; <span class=\"where fmt-newline\">where<br>&nbsp;&nbsp;&nbsp;&nbsp;S: Freeze,&nbsp;</span>") true [],
  Implementor.mk ("impl Freeze for Protocol") true [],
  Implementor.mk ("impl&lt;S, E&gt; Freeze for BodyStream&lt;S, E&gt; <span class=\"where fmt-newline\">where<br>&nbsp;&nbsp;&nbsp;&nbsp;S: Freeze,&nbsp;</span>") true [],
  Implementor.mk ("impl&lt;S&gt; Freeze for SizedStream&lt;S&gt; <span class=\"where fmt-newline\">where<br>&nbsp;&nbsp;&nbsp;&nbsp;S: Freeze,&nbsp;</span>") true [],
  Implementor.mk ("impl Freeze for BodySize") true [],
  Implementor.mk ("impl&lt;B&gt; !Freeze for ResponseBody&lt;B&gt;") true [],
  Implementor.mk ("impl !Freeze for Body") true [],
  Implementor.mk ("impl&lt;T, U&gt; Freeze for Connector&lt;T, U&gt; <span class=\"where fmt-newline\">where<br>&nbsp;&nbsp;&nbsp;&nbsp;T: Freeze,&nbsp;</span>") true [],
  Implementor.mk ("impl !Freeze for Connect") true [],
  Implementor.mk ("impl Freeze for ConnectError") true [],
  Implementor.mk ("impl Freeze for FreezeRequestError") true [],
  Implementor.mk ("impl Freeze for InvalidUrl") true [],
  Implementor.mk ("impl Freeze for SendRequestError") true [],
  Implementor.mk ("impl Freeze for Protocol") true [],
  Implementor.mk ("impl&lt;S&gt; Freeze for Decoder&lt;S&gt; <span class=\"where fmt-newline\">where<br>&nbsp;&nbsp;&nbsp;&nbsp;S: Freeze,&nbsp;</span>") true [],
  Implementor.mk ("impl&lt;B&gt; !Freeze for Encoder&lt;B&gt;") true [],
  Implementor.mk ("impl Freeze for ExtendedValue") true [],
  Implementor.mk ("impl Freeze for ContentEncoding") true [],
  Implementor.mk ("impl Freeze for AcceptCharset") true [],
  Implementor.mk ("impl Freeze for Accept") true [],
  Implementor.mk ("impl Freeze for AcceptLanguage") true [],
  Implementor.mk ("impl Freeze for Allow") true [],
  Implementor.mk ("impl Freeze for CacheControl") true [],
  Implementor.mk ("impl Freeze for CacheDirective") true [],
  Implementor.mk ("impl Freeze for ContentDisposition") true [],
  Implementor.mk ("impl Freeze for DispositionType") true [],
  Implementor.mk ("impl Freeze for DispositionParam") true [],
  Implementor.mk ("impl Freeze for ContentLanguage") true [],
  Implementor.mk ("impl Freeze for ContentRange") true [],
  Implementor.mk ("impl Freeze for ContentRangeSpec") true [],
  Implementor.mk ("impl Freeze for ContentType") true [],
  Implementor.mk ("impl Freeze for Date") true [],
  Implementor.mk ("impl Freeze for ETag") true [],
  Implementor.mk ("impl Freeze for Expires") true [],
  Implementor.mk ("impl Freeze for IfMatch") true [],
  Implementor.mk ("impl Freeze for IfModifiedSince") true [],
  Implementor.mk ("impl Freeze for IfNoneMatch") true [],
  Implementor.mk ("impl Freeze for IfRange") true [],
  Implementor.mk ("impl Freeze for IfUnmodifiedSince") true [],
  Implementor.mk ("impl Freeze for LastModified") true [],
  Implementor.mk ("impl Freeze for HeaderMap") true [],
  Implementor.mk ("impl Freeze for ConnectionType") true [],
  Implementor.mk ("impl Freeze for Error") true [],
  Implementor.mk ("impl&lt;T&gt; !Freeze for InternalError&lt;T&gt;") true [],
  Implementor.mk ("impl Freeze for ParseError") true [],
  Implementor.mk ("impl Freeze for PayloadError") true [],
  Implementor.mk ("impl Freeze for DispatchError") true [],
  Implementor.mk ("impl Freeze for ContentTypeError") true [],
  Implementor.mk ("impl Freeze for ClientCodec") true [],
  Implementor.mk ("impl Freeze for ClientPayloadCodec") true [],
  Implementor.mk ("impl Freeze for Codec") true [],
  Implementor.mk ("impl&lt;T, S, B, X, U&gt; !Freeze for Dispatcher&lt;T, S, B, X, U&gt;") true [],
  Implementor.mk ("impl Freeze for ExpectHandler") true [],
  Implementor.mk ("impl Freeze for Payload") true [],
  Implementor.mk ("impl&lt;T, S, B, X, U&gt; Freeze for H1Service&lt;T, S, B, X, U&gt; <span class=\"where fmt-newline\">where<br>&nbsp;&nbsp;&nbsp;&nbsp;S: Freeze,<br>&nbsp;&nbsp;&nbsp;&nbsp;U: Freeze,<br>&nbsp;&nbsp;&nbsp;&nbsp;X: Freeze,&nbsp;</span>") true [],
  Implementor.mk ("impl&lt;T, S, B, X, U&gt; Freeze for H1ServiceHandler&lt;T, S, B, X, U&gt;") true [],
  Implementor.mk ("impl&lt;T&gt; Freeze for OneRequest&lt;T&gt;") true [],
  Implementor.mk ("impl&lt;T&gt; Freeze for UpgradeHandler&lt;T&gt;") true [],
  Implementor.mk ("impl&lt;T, B&gt; !Freeze for SendResponse&lt;T, B&gt;") true [],
  Implementor.mk ("impl&lt;T&gt; !Freeze for Message&lt;T&gt;") true [],
  Implementor.mk ("impl Freeze for MessageType") true [],
  Implementor.mk ("impl&lt;T, S, B&gt; !Freeze for Dispatcher&lt;T, S, B&gt;") true [],
  Implementor.mk ("impl&lt;T, S, B&gt; Freeze for H2Service&lt;T, S, B&gt; <span class=\"where fmt-newline\">where<br>&nbsp;&nbsp;&nbsp;&nbsp;S: Freeze,&nbsp;</span>") true [],
  Implementor.mk ("impl Freeze for Payload") true [],
  Implementor.mk ("impl !Freeze for TestRequest") true [],
  Implementor.mk ("impl Freeze for TestBuffer") true [],
  Implementor.mk ("impl Freeze for Codec") true [],
  Implementor.mk ("impl&lt;S, T&gt; Freeze for Dispatcher&lt;S, T&gt; <span class=\"where fmt-newline\">where<br>&nbsp;&nbsp;&nbsp;&nbsp;S: Freeze,<br>&nbsp;&nbsp;&nbsp;&nbsp;T: Freeze,<br>&nbsp;&nbsp;&nbsp;&nbsp;&lt;S as Service&gt;::Error: Freeze,&nbsp;</span>") true [],
  Implementor.mk ("impl Freeze for Parser") true [],
  Implementor.mk ("impl Freeze for CloseReason") true [],
  Implementor.mk ("impl !Freeze for Frame") true [],
  Implementor.mk ("impl !Freeze for Item") true [],
  Implementor.mk ("impl !Freeze for Message") true [],
  Implementor.mk ("impl Freeze for CloseCode") true [],
  Implementor.mk ("impl Freeze for OpCode") true [],
  Implementor.mk ("impl Freeze for ProtocolError") true [],
  Implementor.mk ("impl Freeze for HandshakeError") true []
]

/-- The implementor-record array assigned to the actix_http_test key of the implementors object. -/
def actix_http_test_impls : List Implementor := [
  Implementor.mk ("impl Freeze for TestServer") true []
]

/-- The implementor-record array assigned to the actix_multipart key of the implementors object. -/
def actix_multipart_impls : List Implementor := [
  Implementor.mk ("impl !Freeze for Field") true [],
  Implementor.mk ("impl !Freeze for Multipart") true [],
  Implementor.mk ("impl Freeze for MultipartError") true []
]

/-- The implementor-record array assigned to the actix_web key of the implementors object. -/
def actix_web_impls : List Implementor := [
  Implementor.mk ("impl&lt;T, B&gt; Freeze for App&lt;T, B&gt; <span class=\"where fmt-newline\">where<br>&nbsp;&nbsp;&nbsp;&nbsp;T: Freeze,&nbsp;</span>") true [],
  Implementor.mk ("impl Freeze for HttpRequest") true [],
  Implementor.mk ("impl&lt;T&gt; Freeze for Resource&lt;T&gt; <span class=\"where fmt-newline\">where<br>&nbsp;&nbsp;&nbsp;&nbsp;T: Freeze,&nbsp;</span>") true [],
  Implementor.mk ("impl Freeze for Route") true [],
  Implementor.mk ("impl&lt;T&gt; Freeze for Scope&lt;T&gt; <span class=\"where fmt-newline\">where<br>&nbsp;&nbsp;&nbsp;&nbsp;T: Freeze,&nbsp;</span>") true [],
  Implementor.mk ("impl&lt;F, I, S, B&gt; !Freeze for HttpServer&lt;F, I, S, B&gt;") true [],
  Implementor.mk ("impl&lt;A, B&gt; Freeze for Either&lt;A, B&gt; <span class=\"where fmt-newline\">where<br>&nbsp;&nbsp;&nbsp;&nbsp;A: Freeze,<br>&nbsp;&nbsp;&nbsp;&nbsp;B: Freeze,&nbsp;</span>") true [],
  Implementor.mk ("impl Freeze for AppService") true [],
  Implementor.mk ("impl Freeze for AppConfig") true [],
  Implementor.mk ("impl Freeze for ServiceConfig") true [],
  Implementor.mk ("impl&lt;T:&nbsp;?Sized&gt; Freeze for Data&lt;T&gt;") true [],
  Implementor.mk ("impl Freeze for UrlGenerationError") true [],
  Implementor.mk ("impl Freeze for UrlencodedError") true [],
  Implementor.mk ("impl Freeze for JsonPayloadError") true [],
  Implementor.mk ("impl Freeze for PathError") true [],
  Implementor.mk ("impl Freeze for QueryPayloadError") true [],
  Implementor.mk ("impl Freeze for ReadlinesError") true [],
  Implementor.mk ("impl Freeze for AnyGuard") true [],
  Implementor.mk ("impl Freeze for AllGuard") true [],
  Implementor.mk ("impl Freeze for ConnectionInfo") true [],
  Implementor.mk ("impl Freeze for Compress") true [],
  Implementor.mk ("impl&lt;T&gt; Freeze for Condition&lt;T&gt; <span class=\"where fmt-newline\">where<br>&nbsp;&nbsp;&nbsp;&nbsp;T: Freeze,&nbsp;</span>") true [],
  Implementor.mk ("impl Freeze for DefaultHeaders") true [],
  Implementor.mk ("impl Freeze for Logger") true [],
  Implementor.mk ("impl&lt;B&gt; Freeze for ErrorHandlers&lt;B&gt;") true [],
  Implementor.mk ("impl&lt;B&gt; !Freeze for ErrorHandlerResponse&lt;B&gt;") true [],
  Implementor.mk ("impl Freeze for NormalizePath") true [],
  Implementor.mk ("impl Freeze for TrailingSlash") true [],
  Implementor.mk ("impl&lt;T&gt; Freeze for ReqData&lt;T&gt; <span class=\"where fmt-newline\">where<br>&nbsp;&nbsp;&nbsp;&nbsp;T: Freeze,&nbsp;</span>") true [],
  Implementor.mk ("impl !Freeze for ResourceMap") true [],
  Implementor.mk ("impl Freeze for ServiceRequest") true [],
  Implementor.mk ("impl&lt;B&nbsp;=&nbsp;Body&gt; !Freeze for ServiceResponse&lt;B&gt;") true [],
  Implementor.mk ("impl Freeze for WebService") true [],
  Implementor.mk ("impl !Freeze for TestRequest") true [],
  Implementor.mk ("impl Freeze for TestServerConfig") true [],
  Implementor.mk ("impl Freeze for TestServer") true [],
  Implementor.mk ("impl&lt;T&gt; Freeze for Form&lt;T&gt; <span class=\"where fmt-newline\">where<br>&nbsp;&nbsp;&nbsp;&nbsp;T: Freeze,&nbsp;</span>") true [],
  Implementor.mk ("impl Freeze for FormConfig") true [],
  Implementor.mk ("impl&lt;U&gt; Freeze for UrlEncoded&lt;U&gt;") true [],
  Implementor.mk ("impl&lt;T&gt; Freeze for Json&lt;T&gt; <span class=\"where fmt-newline\">where<br>&nbsp;&nbsp;&nbsp;&nbsp;T: Freeze,&nbsp;</span>") true [],
  Implementor.mk ("impl Freeze for JsonConfig") true [],
  Implementor.mk ("impl&lt;U&gt; Freeze for JsonBody&lt;U&gt;") true [],
  Implementor.mk ("impl&lt;T&gt; Freeze for Path&lt;T&gt; <span class=\"where fmt-newline\">where<br>&nbsp;&nbsp;&nbsp;&nbsp;T: Freeze,&nbsp;</span>") true [],
  Implementor.mk ("impl Freeze for PathConfig") true [],
  Implementor.mk ("impl Freeze for Payload") true [],
  Implementor.mk ("impl Freeze for PayloadConfig") true [],
  Implementor.mk ("impl&lt;T&gt; Freeze for Query&lt;T&gt; <span class=\"where fmt-newline\">where<br>&nbsp;&nbsp;&nbsp;&nbsp;T: Freeze,&nbsp;</span>") true [],
  Implementor.mk ("impl Freeze for QueryConfig") true [],
  Implementor.mk ("impl&lt;T&gt; Freeze for Readlines&lt;T&gt; <span class=\"where fmt-newline\">where<br>&nbsp;&nbsp;&nbsp;&nbsp;&lt;T as HttpMessage&gt;::Stream: Freeze,&nbsp;</span>") true []
]

/-- The implementor-record array assigned to the actix_web_actors key of the implementors object. -/
def actix_web_actors_impls : List Implementor := [
  Implementor.mk ("impl&lt;A&gt; Freeze for HttpContext&lt;A&gt;") true [],
  Implementor.mk ("impl&lt;A&gt; Freeze for WebsocketContext&lt;A&gt;") true []
]

/-- The implementor-record array assigned to the awc key of the implementors object. -/
def awc_impls : List Implementor := [
  Implementor.mk ("impl !Freeze for ClientBuilder") true [],
  Implementor.mk ("impl Freeze for BoxedSocket") true [],
  Implementor.mk ("impl Freeze for FrozenClientRequest") true [],
  Implementor.mk ("impl Freeze for FrozenSendBuilder") true [],
  Implementor.mk ("impl !Freeze for ClientRequest") true [],
  Implementor.mk ("impl&lt;S&nbsp;=&nbsp;Pin&lt;Box&lt;dyn Stream&lt;Item = Result&lt;Bytes, PayloadError&gt;&gt; + \x27static, Global&gt;&gt;&gt; !Freeze for ClientResponse&lt;S&gt;") true [],
  Implementor.mk ("impl&lt;S, U&gt; Freeze for JsonBody&lt;S, U&gt; <span class=\"where fmt-newline\">where<br>&nbsp;&nbsp;&nbsp;&nbsp;S: Freeze,&nbsp;</span>") true [],
  Implementor.mk ("impl&lt;S&gt; Freeze for MessageBody&lt;S&gt; <span class=\"where fmt-newline\">where<br>&nbsp;&nbsp;&nbsp;&nbsp;S: Freeze,&nbsp;</span>") true [],
  Implementor.mk ("impl Freeze for Client") true [],
  Implementor.mk ("impl Freeze for SendClientRequest") true [],
  Implementor.mk ("impl !Freeze for WsClientError") true [],
  Implementor.mk ("impl Freeze for JsonPayloadError") true [],
  Implementor.mk ("impl !Freeze for TestResponse") true [],
  Implementor.mk ("impl !Freeze for WebsocketsRequest") true []
]

/-- The implementors object after the seven key assignments of the source file,
starting from the empty object literal, in source order. -/
def implementors : ImplMap :=
  (objSet (objSet (objSet (objSet (objSet (objSet (objSet [] ("actix_files") actix_files_impls) ("actix_http") actix_http_impls) ("actix_http_test") actix_http_test_impls) ("actix_multipart") actix_multipart_impls) ("actix_web") actix_web_impls) ("actix_web_actors") actix_web_actors_impls) ("awc") awc_impls)
/-- The window state visible to the script: whether window.register_implementors
is defined and truthy, the arguments of the calls made to it so far, the
window.pending_implementors slot, and all remaining window state, abstracted as
a value of an arbitrary type ρ so that the frame of the script is expressible. -/
structure Window (ρ : Type) where
  hasRegisterImplementors : Bool
  registeredCalls : List ImplMap
  pending_implementors : Option ImplMap
  rest : ρ

/-- Evaluation of the whole script on a given window: build the implementors
object, then either call window.register_implementors on it or assign it to
window.pending_implementors. The script has no failure point, so evaluation
always returns ok; the Except type records that nothing can be thrown. -/
def evalScript {ρ : Type} (w : Window ρ) : Except String (Window ρ) :=
  let impls := implementors
  if w.hasRegisterImplementors then
    Except.ok ⟨w.hasRegisterImplementors, w.registeredCalls ++ [impls],
      w.pending_implementors, w.rest⟩
  else
    Except.ok ⟨w.hasRegisterImplementors, w.registeredCalls, some impls, w.rest⟩

/-- The mapping the evaluation hands to the viewer: the argument of the
registration call it makes, or the value it stores in the pending slot. -/
def writtenMapping {ρ : Type} (w : Window ρ) : Option ImplMap :=
  match evalScript w with
  | Except.ok w2 =>
      if w.hasRegisterImplementors then w2.registeredCalls.getLast?
      else w2.pending_implementors
  | Except.error _ => none

/-- The list of text fields of a record list. -/
def texts (l : List Implementor) : List String := l.map (fun r => r.text)

/-- Whether a list of strings has no duplicate element. -/
def nodupStr : List String → Bool
  | [] => true
  | s :: rest => (!(rest.contains s)) && nodupStr rest

/-- Whether the first character list starts the second one. -/
def leadsWith : List Char → List Char → Bool
  | [], _ => true
  | _ :: _, [] => false
  | p :: ps, c :: cs => p == c && leadsWith ps cs

/-- Whether the pattern occurs inside the character list. -/
def listHasSub (pat : List Char) : List Char → Bool
  | [] => pat.isEmpty
  | c :: cs => leadsWith pat (c :: cs) || listHasSub pat cs

/-- Whether the pattern string occurs inside the string s. -/
def strHasSub (pat s : String) : Bool := listHasSub pat.toList s.toList

/-- Whatever the window, the mapping the evaluation hands off is the constant
implementors object of the file. -/
theorem writtenMapping_eq {ρ : Type} (w : Window ρ) :
    writtenMapping w = some implementors := by
  obtain ⟨b, calls, pend, r⟩ := w
  cases b with
  | true =>
      have h : writtenMapping (⟨true, calls, pend, r⟩ : Window ρ)
          = (calls ++ [implementors]).getLast? := rfl
      rw [h, List.getLast?_concat]
  | false => rfl

/-- Claim C1: when window.register_implementors is defined and truthy, the
evaluation calls it exactly once, passing the static implementors mapping built
in the file, and touches nothing else: the pending slot, the flag and all
remaining window state are unchanged. -/
theorem eval_registers_once {ρ : Type} (w : Window ρ)
    (h : w.hasRegisterImplementors = true) :
    evalScript w = Except.ok ⟨w.hasRegisterImplementors,
      w.registeredCalls ++ [implementors], w.pending_implementors, w.rest⟩ := by
  obtain ⟨b, calls, pend, r⟩ := w
  have hb : b = true := h
  subst hb
  rfl

/-- Claim C1, applied: at a window with the registration hook present and no
prior calls, the evaluation makes the single call with the implementors map. -/
theorem eval_registers_once_applied :
    evalScript (⟨true, [], none, 0⟩ : Window Nat)
      = Except.ok ⟨true, [implementors], none, 0⟩ :=
  eval_registers_once (⟨true, [], none, 0⟩ : Window Nat) rfl

set_option maxRecDepth 100000 in
set_option maxHeartbeats 1000000 in
/-- Claim C2, counterexample: the actix_http key of the registered mapping
holds a list whose text fields are not pairwise distinct; for instance the
record with text impl Freeze for Protocol occurs twice in it. -/
theorem actix_http_duplicate_text :
    implementors.lookup ("actix_http") = some actix_http_impls ∧
    nodupStr (texts actix_http_impls) = false ∧
    (texts actix_http_impls).count ("impl Freeze for Protocol") = 2 :=
  ⟨by decide, by decide, by decide⟩

set_option maxRecDepth 100000 in
set_option maxHeartbeats 1000000 in
/-- Claim C2 as amended: for every crate key of the registered mapping other
than actix_http, the text fields of that crate's list are pairwise distinct;
the actix_http list itself contains duplicated texts. -/
theorem nodup_texts_outside_actix_http :
    ∀ kv ∈ implementors, kv.1 ≠ "actix_http" → nodupStr (texts kv.2) = true := by
  decide

set_option maxRecDepth 100000 in
set_option maxHeartbeats 1000000 in
/-- Claim C2 as amended, applied to the awc entry of the mapping. -/
theorem nodup_texts_outside_actix_http_applied :
    nodupStr (texts awc_impls) = true :=
  nodup_texts_outside_actix_http ("awc", awc_impls) (by decide) (by decide)

/-- Claim C3: a single evaluation writes into exactly one global registry slot:
with the hook present it appends exactly one registration call and leaves the
pending slot alone, without the hook it fills the pending slot and makes no
call; in both cases the hook flag and all remaining window state are
unchanged. -/
theorem eval_writes_single_slot {ρ : Type} (w : Window ρ) :
    ∃ w2, evalScript w = Except.ok w2 ∧
      w2.hasRegisterImplementors = w.hasRegisterImplementors ∧
      w2.rest = w.rest ∧
      (if w.hasRegisterImplementors then
        w2.registeredCalls = w.registeredCalls ++ [implementors] ∧
          w2.pending_implementors = w.pending_implementors
      else
        w2.registeredCalls = w.registeredCalls ∧
          w2.pending_implementors = some implementors) := by
  obtain ⟨b, calls, pend, r⟩ := w
  cases b with
  | true =>
      refine ⟨⟨true, calls ++ [implementors], pend, r⟩, rfl, rfl, rfl, ?_⟩
      simp
  | false =>
      refine ⟨⟨false, calls, some implementors, r⟩, rfl, rfl, rfl, ?_⟩
      simp

set_option maxRecDepth 100000 in
set_option maxHeartbeats 1000000 in
/-- Claim C4: the value handed to the viewer is a mapping from crate-name
string to an ordered list of implementor records whose keys are exactly the
seven crates, in source order. -/
theorem handed_mapping_keys {ρ : Type} (w : Window ρ) :
    ∃ m, writtenMapping w = some m ∧
      m.map Prod.fst = ["actix_files", "actix_http", "actix_http_test",
        "actix_multipart", "actix_web", "actix_web_actors", "awc"] :=
  ⟨implementors, writtenMapping_eq w, by decide⟩

set_option maxRecDepth 100000 in
set_option maxHeartbeats 1000000 in
/-- Claim C5: every record of every crate's list carries the three fields of
the record tuple, the field presence being forced by the record structure of
the embedding itself: a non-empty human-readable type signature in the text
field, in which the applicability of the Freeze trait is spelled out, the
synthetic marker-trait status, and the list of generic type parameters. -/
theorem records_carry_tuple_fields :
    ∀ kv ∈ implementors, ∀ r ∈ kv.2,
      r.text ≠ "" ∧ strHasSub ("Freeze for") r.text = true := by
  decide

set_option maxRecDepth 100000 in
set_option maxHeartbeats 1000000 in
/-- Claim C5, applied to the single record of the actix_http_test entry. -/
theorem records_carry_tuple_fields_applied :
    (Implementor.mk ("impl Freeze for TestServer") true []).text ≠ "" :=
  (records_carry_tuple_fields ("actix_http_test", actix_http_test_impls)
    (by decide) (Implementor.mk ("impl Freeze for TestServer") true []) (by decide)).1

/-- Claim C6: evaluation cannot fail: on every window the script runs to
completion and returns a resulting window, throwing nothing. -/
theorem eval_cannot_fail {ρ : Type} (w : Window ρ) :
    ∃ w2, evalScript w = Except.ok w2 := by
  obtain ⟨b, calls, pend, r⟩ := w
  cases b with
  | true => exact ⟨_, rfl⟩
  | false => exact ⟨_, rfl⟩

/-- Claim C7: the handed-off data is constant reference data: any two
evaluations, over any window states, hand off the identical mapping, namely
the implementors object of the file, independent of any input. -/
theorem handed_mapping_constant {ρ₁ ρ₂ : Type} (w₁ : Window ρ₁) (w₂ : Window ρ₂) :
    writtenMapping w₁ = some implementors ∧ writtenMapping w₁ = writtenMapping w₂ :=
  ⟨writtenMapping_eq w₁, (writtenMapping_eq w₁).trans (writtenMapping_eq w₂).symm⟩

/-- Claim C8: when window.register_implementors is absent or falsy, the mapping
is not discarded: it is stored in window.pending_implementors, and no
registration call is made. -/
theorem eval_stores_pending {ρ : Type} (w : Window ρ)
    (h : w.hasRegisterImplementors = false) :
    evalScript w = Except.ok ⟨w.hasRegisterImplementors, w.registeredCalls,
      some implementors, w.rest⟩ := by
  obtain ⟨b, calls, pend, r⟩ := w
  have hb : b = false := h
  subst hb
  rfl

/-- Claim C8, applied: at a window without the registration hook, the mapping
lands in the pending slot and the call list stays empty. -/
theorem eval_stores_pending_applied :
    evalScript (⟨false, [], none, 0⟩ : Window Nat)
      = Except.ok ⟨false, [], some implementors, 0⟩ :=
  eval_stores_pending (⟨false, [], none, 0⟩ : Window Nat) rfl

set_option maxRecDepth 100000 in
set_option maxHeartbeats 1000000 in
/-- Claim C9: every record of every crate's list has synthetic equal to true
and an empty types list, and its text states the Freeze trait either
positively or negatively, as an occurrence of Freeze for, negated or not. -/
theorem records_synthetic_and_marker_text :
    ∀ kv ∈ implementors, ∀ r ∈ kv.2,
      r.synthetic = true ∧ r.types = [] ∧
        (strHasSub ("Freeze for") r.text = true ∨
          strHasSub ("!Freeze for") r.text = true) := by
  decide

set_option maxRecDepth 100000 in
set_option maxHeartbeats 1000000 in
/-- Claim C9, applied to the first record of the actix_multipart entry. -/
theorem records_synthetic_and_marker_text_applied :
    (Implementor.mk ("impl !Freeze for Field") true []).synthetic = true :=
  (records_synthetic_and_marker_text ("actix_multipart", actix_multipart_impls)
    (by decide) (Implementor.mk ("impl !Freeze for Field") true []) (by decide)).1

set_option maxRecDepth 100000 in
set_option maxHeartbeats 1000000 in
/-- Claim C10: every crate key of the mapping holds a non-empty list: each of
the seven crates has at least one implementor record. -/
theorem crate_lists_nonempty :
    ∀ kv ∈ implementors, kv.2 ≠ [] := by
  decide

set_option maxRecDepth 100000 in
set_option maxHeartbeats 1000000 in
/-- Claim C10, applied to the actix_web_actors entry of the mapping. -/
theorem crate_lists_nonempty_applied :
    actix_web_actors_impls ≠ [] :=
  crate_lists_nonempty ("actix_web_actors", actix_web_actors_impls) (by decide)

end TraitFreeze
